import Mathlib

/-!
Shallow embedding of the assessment-scoring logic of the CHAI facility-assessment
portal (files `src/utils.py`, `src/app.py`, `src/validators.py`, `src/pmtct_config.py`).

The embedded regions are:
* `ExcelGenerator._create_summary_sheet` (src/utils.py, lines 162-247): derives the
  overall percentage and performance band shown on the Excel summary sheet.
* `WordGenerator.create_assessment_word` / `WordGenerator._create_summary_section`
  (src/utils.py, lines 1094-1211): the same derivation, re-implemented for Word.
* `submit_assessment` overall-score computation (src/app.py, lines 1216-1223).
* `DataValidator.validate_assessment_data` score guard (src/validators.py, lines 122-136).
* the module-level configuration literal `PMTCT_ASSESSMENT` (src/pmtct_config.py).

Python numbers are modelled as exact rationals (`ℚ`); Python's `round(x, 1)` is
modelled as round-half-to-even to one decimal, per the Python documentation.
-/

namespace CHAI

/-- A raw value stored in the `scores` mapping of an assessment payload:
`None`, a string, or a number (int and float collapse to `ℚ`). -/
inductive Value where
  | vnone : Value
  | vstr : String → Value
  | vnum : ℚ → Value
deriving DecidableEq, Repr

/-- The `scores` dictionary: a flat association list from section/question
identifier to raw value. -/
abbrev Scores := List (String × Value)

/-- Numeric value of a list of decimal digit characters (most significant first). -/
def digitsToNat (l : List Char) : Nat :=
  l.foldl (fun n c => n * 10 + (c.toNat - 48)) 0

/-- Model of Python's builtin `float` applied to a string: accepts an optional
sign followed by a decimal literal (digits with at most one dot and at least
one digit), returns `none` (a `ValueError`) otherwise.  Exponent forms and
`inf`/`nan`, which never arise for this application's score strings, are
modelled as failing. -/
def parseFloat (s : String) : Option ℚ :=
  let chars := s.toList
  let signBody : ℚ × List Char :=
    match chars with
    | '-' :: rest => (-1, rest)
    | '+' :: rest => (1, rest)
    | _ => (1, chars)
  let sgn := signBody.1
  let body := signBody.2
  if body.all (fun c => c.isDigit || c == '.') ∧ body.count '.' ≤ 1 ∧
      body.any Char.isDigit then
    let ip := body.takeWhile (fun c => c ≠ '.')
    let fp := (body.dropWhile (fun c => c ≠ '.')).drop 1
    some (sgn * ((digitsToNat ip : ℚ) + (digitsToNat fp : ℚ) / 10 ^ fp.length))
  else none

/-- Models the expression `float(score) if score not in ['N/A', '', None] else 0`
evaluated inside a `try` block (src/utils.py lines 226 and 245): `some v` is
normal completion with value `v`; `none` is a `ValueError`/`TypeError`
escaping to the `except` handler. -/
def scoreVal : Value → Option ℚ
  | .vnone => some 0
  | .vstr s => if s = "N/A" ∨ s = "" then some 0 else parseFloat s
  | .vnum q => some q

/-- Round-half-to-even to the nearest integer, the rounding used by Python's
builtin `round`. -/
def roundHalfEvenInt (y : ℚ) : ℤ :=
  if y - (Int.floor y : ℚ) < 1 / 2 then Int.floor y
  else if 1 / 2 < y - (Int.floor y : ℚ) then Int.floor y + 1
  else if Int.floor y % 2 = 0 then Int.floor y else Int.floor y + 1

/-- Model of Python's `round(x, 1)` on exact rationals: round-half-to-even to
one decimal place. -/
def pyRound1 (x : ℚ) : ℚ :=
  (roundHalfEvenInt (x * 10) : ℚ) / 10

/-- Running score totals of the summary computation: the variables
`total_possible`, `total_scored` and `scored_indicators` of
`_create_summary_sheet` / `_create_summary_section`. -/
structure Totals where
  total_possible : Nat
  total_scored : ℚ
  scored_indicators : Nat
deriving DecidableEq, Repr

namespace ExcelGenerator

/-- `sections_with_data` (src/utils.py line 180): the section ids that occur in
`scores` directly or as a prefix `key + "_"` of some scores key. -/
def sections_with_data (section_ids : List String) (scores : Scores) : List String :=
  section_ids.filter (fun key =>
    (scores.lookup key).isSome || scores.any (fun kv => kv.1.startsWith (key ++ "_")))

/-- One iteration of the multi-section score loop (src/utils.py lines 222-232):
`total_possible += 4` unconditionally; inside `try`, evaluate the score
(`scores.get(section_id, 0)`), and when positive add it to `total_scored` and
bump `scored_indicators`; a `ValueError`/`TypeError` falls to `except: pass`,
skipping only the numerator update. -/
def loop_step (scores : Scores) (t : Totals) (section_id : String) : Totals :=
  let score := (scores.lookup section_id).getD (.vnum 0)
  match scoreVal score with
  | some score_val =>
      if score_val > 0 then
        ⟨t.total_possible + 4, t.total_scored + score_val, t.scored_indicators + 1⟩
      else
        ⟨t.total_possible + 4, t.total_scored, t.scored_indicators⟩
  | none => ⟨t.total_possible + 4, t.total_scored, t.scored_indicators⟩

/-- The multi-section branch of the score loop (src/utils.py lines 221-232),
starting from `total_possible = total_scored = scored_indicators = 0`. -/
def loop_totals (section_ids : List String) (scores : Scores) : Totals :=
  section_ids.foldl (loop_step scores) ⟨0, 0, 0⟩

/-- The single-section branch (src/utils.py lines 211-220): `total_possible = 4`,
`total_scored` is the section's parsed score with the `except` handler
resetting it to 0. -/
def single_totals (section_key : String) (scores : Scores) : Totals :=
  let score := (scores.lookup section_key).getD (.vnum 0)
  let total_scored := (scoreVal score).getD 0
  ⟨4, total_scored, if total_scored > 0 then 1 else 0⟩

/-- `percentage = round((total_scored / total_possible * 100), 1) if
total_possible > 0 else 0` (src/utils.py line 233). -/
def percentage (t : Totals) : ℚ :=
  if t.total_possible > 0 then
    pyRound1 (t.total_scored / (t.total_possible : ℚ) * 100)
  else 0

/-- The performance-level cascade (src/utils.py lines 235-247). -/
def performance (p : ℚ) : String :=
  if p ≥ 75 then "EXCELLENT"
  else if p ≥ 50 then "GOOD"
  else if p ≥ 25 then "NEEDS IMPROVEMENT"
  else "CRITICAL"

/-- The score-relevant part of `ExcelGenerator._create_summary_sheet`
(src/utils.py lines 162-247): `section_ids` comes from
`assessment_data['section_definitions'].keys()`; the branch is chosen by
`is_section_download = len(sections_with_data) == 1`.  Returns the
`(percentage, performance)` pair; `none` models an uncaught exception. -/
def summary_scores (scores : Scores) (section_definition_keys : List String) :
    Option (ℚ × String) :=
  let section_ids := section_definition_keys
  let swd := sections_with_data section_ids scores
  let is_section_download := swd.length == 1
  if is_section_download then
    match swd.head? with
    | some section_key =>
        let t := single_totals section_key scores
        some (percentage t, performance (percentage t))
    | none => none
  else
    let t := loop_totals section_ids scores
    some (percentage t, performance (percentage t))

/-- The summary computation surfaces no warning list: the `except
(ValueError, TypeError)` handlers in `_create_summary_sheet` execute `pass`
(multi-section branch) or reset `total_scored` to 0 (single-section branch)
and record nothing, and the function's score output is only the
`(percentage, performance)` pair.  The list of surfaced anomalies is
therefore constantly empty. -/
def summary_warnings (_scores : Scores) (_section_definition_keys : List String) :
    List String := []

end ExcelGenerator

namespace WordGenerator

/-- The hardcoded section-id list of `WordGenerator._create_summary_section`
(src/utils.py lines 1139-1143). -/
def word_section_ids : List String :=
  ["triple_elimination_treatment", "art_pmtct", "quality_pmtct", "patient_tracking",
   "adherence_support", "facility_linkage", "sti_screening", "early_infant_diagnosis",
   "ctx_hei", "tracking_hei", "enrolment_eid_art", "hei_eid_registers",
   "supply_chain_eid", "supply_chain_pmtct", "supply_chain_syphilis", "supply_chain_hepb",
   "patient_records"]

/-- `sections_with_data` as recomputed inside `_create_summary_section`
(src/utils.py line 1145). -/
def sections_with_data (section_ids : List String) (scores : Scores) : List String :=
  section_ids.filter (fun key =>
    (scores.lookup key).isSome || scores.any (fun kv => kv.1.startsWith (key ++ "_")))

/-- One iteration of the multi-section score loop of `_create_summary_section`
(src/utils.py lines 1187-1196), identical in text to the Excel loop body. -/
def loop_step (scores : Scores) (t : Totals) (section_id : String) : Totals :=
  let score := (scores.lookup section_id).getD (.vnum 0)
  match scoreVal score with
  | some score_val =>
      if score_val > 0 then
        ⟨t.total_possible + 4, t.total_scored + score_val, t.scored_indicators + 1⟩
      else
        ⟨t.total_possible + 4, t.total_scored, t.scored_indicators⟩
  | none => ⟨t.total_possible + 4, t.total_scored, t.scored_indicators⟩

/-- The multi-section score loop of `_create_summary_section`
(src/utils.py lines 1186-1196). -/
def loop_totals (section_ids : List String) (scores : Scores) : Totals :=
  section_ids.foldl (loop_step scores) ⟨0, 0, 0⟩

/-- The single-section branch of `_create_summary_section`
(src/utils.py lines 1175-1185). -/
def single_totals (section_key : String) (scores : Scores) : Totals :=
  let score := (scores.lookup section_key).getD (.vnum 0)
  let total_scored := (scoreVal score).getD 0
  ⟨4, total_scored, if total_scored > 0 then 1 else 0⟩

/-- `percentage` line of `_create_summary_section` (src/utils.py line 1198). -/
def percentage (t : Totals) : ℚ :=
  if t.total_possible > 0 then
    pyRound1 (t.total_scored / (t.total_possible : ℚ) * 100)
  else 0

/-- The performance-level cascade of `_create_summary_section`
(src/utils.py lines 1200-1211). -/
def performance (p : ℚ) : String :=
  if p ≥ 75 then "EXCELLENT"
  else if p ≥ 50 then "GOOD"
  else if p ≥ 25 then "NEEDS IMPROVEMENT"
  else "CRITICAL"

/-- Score computation of `WordGenerator._create_summary_section`
(src/utils.py lines 1137-1211).  `is_section_download` is a parameter supplied
by the caller; `sections_with_data` is recomputed from the hardcoded
`word_section_ids`.  In the single-section branch the source indexes
`sections_with_data[0]`, which raises `IndexError` when that list is empty —
modelled by `none`. -/
def create_summary_section (scores : Scores) (is_section_download : Bool) :
    Option (ℚ × String) :=
  let swd := sections_with_data word_section_ids scores
  if is_section_download then
    match swd.head? with
    | some section_key =>
        let t := single_totals section_key scores
        some (percentage t, performance (percentage t))
    | none => none
  else
    let t := loop_totals word_section_ids scores
    some (percentage t, performance (percentage t))

/-- The score-relevant part of the Word path end to end
(`WordGenerator.create_assessment_word`, src/utils.py lines 1103-1112): the
caller computes `is_section_download` from
`assessment_data['section_definitions'].keys()` and passes it to
`_create_summary_section`. -/
def summary_scores (scores : Scores) (section_definition_keys : List String) :
    Option (ℚ × String) :=
  let section_ids := section_definition_keys
  let swd := sections_with_data section_ids scores
  let is_section_download := swd.length == 1
  create_summary_section scores is_section_download

end WordGenerator

namespace App

/-- The overall-score computation of `submit_assessment` (src/app.py lines
1216-1223): `total_score = sum(scores.values())`, `max_score = len(scores) * 5`,
`overall_score = (total_score / max_score) * 100 if max_score > 0 else 0`,
and `overall_score = 0` when the scores dict is empty.  The `sum` builtin
requires numeric values, so the mapping is modelled with rational values. -/
def overall_score (scores : List (String × ℚ)) : ℚ :=
  if scores.length ≠ 0 then
    let total_score := (scores.map (fun kv => kv.2)).sum
    let max_score : ℕ := scores.length * 5
    if max_score > 0 then total_score / (max_score : ℚ) * 100 else 0
  else 0

end App

/-- A raw JSON value as seen by the validator: `None`, a number (int/float),
a string, or anything else (list, dict, bool is treated as int in Python but
never occurs here). -/
inductive PyVal where
  | pynone : PyVal
  | pynum : ℚ → PyVal
  | pystr : String → PyVal
  | pyother : PyVal
deriving DecidableEq, Repr

namespace DataValidator

/-- The numeric-score guard of `validate_assessment_data` (src/validators.py
line 132): `0 <= score <= 5 or 0 <= score <= 100`. -/
def numeric_score_ok (score : ℚ) : Bool :=
  decide (0 ≤ score ∧ score ≤ 5) || decide (0 ≤ score ∧ score ≤ 100)

/-- The scores-validation loop of `validate_assessment_data`
(src/validators.py lines 124-137): `None` is skipped, a numeric score is
checked against the guard, strings always pass, and any other type is an
error.  Errors accumulate in iteration order. -/
def validate_scores_errors (scores : List (String × PyVal)) : List String :=
  scores.foldl
    (fun errors entry =>
      match entry.2 with
      | .pynone => errors
      | .pynum score =>
          if numeric_score_ok score then errors
          else errors ++
            ["Invalid numeric score for " ++ entry.1 ++ ". Must be between 0-5 or 0-100"]
      | .pystr _ => errors
      | .pyother =>
          errors ++ ["Invalid score type for " ++ entry.1 ++ ". Must be int, float, or string"])
    []

end DataValidator

/-- A question of the assessment configuration, reduced to the fields relevant
to dependency validation: its id and its optional `depends_on` entry
(a mapping from a prior question id to the required answer value). -/
structure QuestionSpec where
  id : String
  depends_on : Option (String × String)
deriving DecidableEq, Repr

/-- A section of the assessment configuration: its id and its questions. -/
structure SectionSpec where
  id : String
  questions : List QuestionSpec
deriving DecidableEq, Repr

/-- The assessment configuration: a list of sections. -/
structure AssessmentConfig where
  sections : List SectionSpec
deriving DecidableEq, Repr

/-- The configuration "loader" of the source: `PMTCT_ASSESSMENT` is a plain
module-level dictionary literal in src/pmtct_config.py, and importing the
module binds it unchanged.  No validation pass runs at load time (or ever),
and no `SpecificationError` class exists anywhere in the repository, so the
load step is the identity and never fails. -/
def load_assessment_config (c : AssessmentConfig) : Except String AssessmentConfig :=
  Except.ok c

/-- Transcription of the `patient_records` section of `PMTCT_ASSESSMENT`
(src/pmtct_config.py lines 53-84), restricted to ids and `depends_on`
entries: the chain pr_q1 → pr_q2 → pr_q3 → pr_q4. -/
def patient_records_section : SectionSpec :=
  ⟨"patient_records",
   [⟨"pr_q1", none⟩,
    ⟨"pr_q2", some ("pr_q1", "yes")⟩,
    ⟨"pr_q3", some ("pr_q2", "yes")⟩,
    ⟨"pr_q4", some ("pr_q3", "yes")⟩]⟩

/-- Following the spec's words (§4.3/§7): a configuration is malformed when
some question's `depends_on` references a question id that does not exist in
the same section (a dangling dependency reference). -/
def spec_has_dangling_depends_on (c : AssessmentConfig) : Bool :=
  c.sections.any (fun sec =>
    sec.questions.any (fun q =>
      match q.depends_on with
      | some ref => !(sec.questions.any (fun q2 => q2.id == ref.1))
      | none => false))

/-- A malformed configuration: a single section whose only question declares
`depends_on` a question id `pr_q1` that does not exist in the section. -/
def dangling_config : AssessmentConfig :=
  ⟨[⟨"patient_records", [⟨"pr_q2", some ("pr_q1", "yes")⟩]⟩]⟩

/-- Following the spec's words (§4.2): the count of sections that are neither
not-applicable (the respondent marked them `'N/A'`) nor not-answered (their
score is absent, `None`, or the empty string). -/
def spec_scorable_count (scores : Scores) (section_ids : List String) : Nat :=
  (section_ids.filter (fun section_id =>
    match scores.lookup section_id with
    | none => false
    | some .vnone => false
    | some (.vstr s) => !(s == "N/A" || s == "")
    | some (.vnum _) => true)).length

/-- The amount a single section adds to `total_scored` in one iteration of the
multi-section loop (src/utils.py lines 223-232): its parsed score when that
parse succeeds and is positive, and 0 otherwise. -/
def numerator_contribution (scores : Scores) (section_id : String) : ℚ :=
  match scoreVal ((scores.lookup section_id).getD (.vnum 0)) with
  | some score_val => if score_val > 0 then score_val else 0
  | none => 0

/-! ### Helper lemmas -/

lemma loop_step_total_possible (scores : Scores) (t : Totals) (section_id : String) :
    (ExcelGenerator.loop_step scores t section_id).total_possible = t.total_possible + 4 := by
  rcases h : scoreVal ((scores.lookup section_id).getD (.vnum 0)) with _ | v
  · simp [ExcelGenerator.loop_step, h]
  · by_cases hv : v > 0 <;> simp [ExcelGenerator.loop_step, h, hv]

lemma loop_step_total_scored (scores : Scores) (t : Totals) (section_id : String) :
    (ExcelGenerator.loop_step scores t section_id).total_scored =
      t.total_scored + numerator_contribution scores section_id := by
  rcases h : scoreVal ((scores.lookup section_id).getD (.vnum 0)) with _ | v
  · simp [ExcelGenerator.loop_step, numerator_contribution, h]
  · by_cases hv : v > 0 <;> simp [ExcelGenerator.loop_step, numerator_contribution, h, hv]

lemma foldl_loop_step_total_possible (scores : Scores) (section_ids : List String)
    (t : Totals) :
    (section_ids.foldl (ExcelGenerator.loop_step scores) t).total_possible =
      t.total_possible + 4 * section_ids.length := by
  induction section_ids generalizing t with
  | nil => simp
  | cons x xs ih =>
      rw [List.foldl_cons, ih, loop_step_total_possible]
      simp
      ring

lemma loop_totals_total_possible (section_ids : List String) (scores : Scores) :
    (ExcelGenerator.loop_totals section_ids scores).total_possible =
      4 * section_ids.length := by
  unfold ExcelGenerator.loop_totals
  rw [foldl_loop_step_total_possible]
  simp

lemma foldl_loop_step_total_scored (scores : Scores) (section_ids : List String)
    (t : Totals) :
    (section_ids.foldl (ExcelGenerator.loop_step scores) t).total_scored =
      t.total_scored + ((section_ids.map (numerator_contribution scores)).sum) := by
  induction section_ids generalizing t with
  | nil => simp
  | cons x xs ih =>
      rw [List.foldl_cons, ih, loop_step_total_scored]
      simp
      ring

lemma loop_totals_total_scored (section_ids : List String) (scores : Scores) :
    (ExcelGenerator.loop_totals section_ids scores).total_scored =
      ((section_ids.map (numerator_contribution scores)).sum) := by
  unfold ExcelGenerator.loop_totals
  rw [foldl_loop_step_total_scored]
  simp

lemma roundHalfEvenInt_close (y : ℚ) :
    |y - (roundHalfEvenInt y : ℚ)| ≤ 1 / 2 ∧
      (|y - (roundHalfEvenInt y : ℚ)| = 1 / 2 → Even (roundHalfEvenInt y)) := by
  have h1 : ((Int.floor y : ℤ) : ℚ) ≤ y := Int.floor_le y
  have h2 : y < (Int.floor y : ℚ) + 1 := Int.lt_floor_add_one y
  unfold roundHalfEvenInt
  by_cases hlt : y - (Int.floor y : ℚ) < 1 / 2
  · rw [if_pos hlt]
    have habs : |y - (Int.floor y : ℚ)| = y - (Int.floor y : ℚ) :=
      abs_of_nonneg (by linarith)
    exact ⟨by rw [habs]; linarith, fun h => by rw [habs] at h; linarith⟩
  · by_cases hgt : 1 / 2 < y - (Int.floor y : ℚ)
    · rw [if_neg hlt, if_pos hgt]
      have habs : |y - ((Int.floor y + 1 : ℤ) : ℚ)| = ((Int.floor y : ℚ) + 1) - y := by
        push_cast
        rw [abs_of_nonpos (by linarith)]
        ring
      exact ⟨by rw [habs]; linarith, fun h => by rw [habs] at h; linarith⟩
    · have htie : y - (Int.floor y : ℚ) = 1 / 2 :=
        le_antisymm (not_lt.1 hgt) (not_lt.1 hlt)
      rw [if_neg hlt, if_neg hgt]
      by_cases he : Int.floor y % 2 = 0
      · rw [if_pos he]
        exact ⟨by rw [abs_of_nonneg (by linarith)]; linarith,
          fun _ => Int.even_iff.2 he⟩
      · rw [if_neg he]
        have habs : |y - ((Int.floor y + 1 : ℤ) : ℚ)| = ((Int.floor y : ℚ) + 1) - y := by
          push_cast
          rw [abs_of_nonpos (by linarith)]
          ring
        refine ⟨by rw [habs]; linarith, fun _ => ?_⟩
        have hodd : ¬ Even (Int.floor y) := fun hc => he (Int.even_iff.1 hc)
        exact Int.even_add_one.2 hodd

end CHAI

open CHAI

/-! ### Claim theorems -/

/-- Claim C1, counterexample: for the scores mapping `{a: 4, b: 'N/A'}` over the
section list `[a, b]`, the code's aggregate denominator (`total_possible`) is 8,
while 4 × (count of sections that are neither not-applicable nor not-answered)
is 4 — the 'N/A' section is not excluded from the denominator, and the overall
percentage comes out as 50.0 ("GOOD") instead of the 100.0 the claim implies. -/
theorem c1_counterexample :
    (ExcelGenerator.loop_totals ["a", "b"]
        [("a", .vnum 4), ("b", .vstr "N/A")]).total_possible = 8 ∧
    4 * spec_scorable_count [("a", .vnum 4), ("b", .vstr "N/A")] ["a", "b"] = 4 ∧
    (ExcelGenerator.loop_totals ["a", "b"]
        [("a", .vnum 4), ("b", .vstr "N/A")]).total_possible ≠
      4 * spec_scorable_count [("a", .vnum 4), ("b", .vstr "N/A")] ["a", "b"] ∧
    ExcelGenerator.summary_scores [("a", .vnum 4), ("b", .vstr "N/A")] ["a", "b"] =
      some (50, "GOOD") := by
  have h1 : (ExcelGenerator.loop_totals ["a", "b"]
      [("a", .vnum 4), ("b", .vstr "N/A")]).total_possible = 8 := by
    with_unfolding_all rfl
  have h2 : 4 * spec_scorable_count [("a", .vnum 4), ("b", .vstr "N/A")] ["a", "b"] = 4 := by
    with_unfolding_all rfl
  refine ⟨h1, h2, ?_, ?_⟩
  · rw [h1, h2]
    decide
  · with_unfolding_all rfl

/-- Claim C1, amended: in the multi-section aggregation the denominator is
4 × the total number of sections in the section list, with sections whose
score is 'N/A', empty, `None` or absent counted in the denominator like any
other section (they are never excluded). -/
theorem c1_amended_denominator (scores : Scores) (section_ids : List String) :
    (ExcelGenerator.loop_totals section_ids scores).total_possible =
      4 * section_ids.length :=
  loop_totals_total_possible section_ids scores

/-- Claim C2: the performance band is a function of the computed percentage `p`
alone, with EXCELLENT iff p ≥ 75, GOOD iff 50 ≤ p < 75, NEEDS IMPROVEMENT iff
25 ≤ p < 50, CRITICAL iff p < 25 (lower boundaries inclusive), and the Word
path's band cascade agrees with the Excel path's. -/
theorem c2_band_thresholds (p : ℚ) :
    (ExcelGenerator.performance p = "EXCELLENT" ↔ 75 ≤ p) ∧
    (ExcelGenerator.performance p = "GOOD" ↔ 50 ≤ p ∧ p < 75) ∧
    (ExcelGenerator.performance p = "NEEDS IMPROVEMENT" ↔ 25 ≤ p ∧ p < 50) ∧
    (ExcelGenerator.performance p = "CRITICAL" ↔ p < 25) ∧
    WordGenerator.performance p = ExcelGenerator.performance p := by
  unfold ExcelGenerator.performance WordGenerator.performance
  split_ifs with h1 h2 h3 <;>
    refine ⟨?_, ?_, ?_, ?_, rfl⟩ <;> constructor <;> intro h <;>
      first
      | rfl
      | exact absurd h (by decide)
      | linarith
      | exact ⟨by linarith, by linarith⟩

/-- Claim C3: when the denominator (`total_possible`) is 0, the reported
percentage is 0 and the band is CRITICAL, in both report paths, and the
`submit_assessment` overall score of an empty scores dict is 0; no division
is attempted (the guarded branch returns the constant 0). -/
theorem c3_zero_denominator (t : Totals) (h : t.total_possible = 0) :
    ExcelGenerator.percentage t = 0 ∧
    ExcelGenerator.performance (ExcelGenerator.percentage t) = "CRITICAL" ∧
    WordGenerator.percentage t = 0 ∧
    WordGenerator.performance (WordGenerator.percentage t) = "CRITICAL" ∧
    App.overall_score [] = 0 := by
  have he : ExcelGenerator.percentage t = 0 := by
    simp [ExcelGenerator.percentage, h]
  have hw : WordGenerator.percentage t = 0 := by
    simp [WordGenerator.percentage, h]
  refine ⟨he, ?_, hw, ?_, by norm_num [App.overall_score]⟩
  · rw [he]
    norm_num [ExcelGenerator.performance]
  · rw [hw]
    norm_num [WordGenerator.performance]

/-- Witness for C3 at the concrete totals (0, 7, 2). -/
theorem c3_witness :
    ExcelGenerator.percentage ⟨0, 7, 2⟩ = 0 ∧
    ExcelGenerator.performance (ExcelGenerator.percentage ⟨0, 7, 2⟩) = "CRITICAL" ∧
    WordGenerator.percentage ⟨0, 7, 2⟩ = 0 ∧
    WordGenerator.performance (WordGenerator.percentage ⟨0, 7, 2⟩) = "CRITICAL" ∧
    App.overall_score [] = 0 :=
  c3_zero_denominator ⟨0, 7, 2⟩ rfl

/-- Claim C4: for a single-section download whose section grade value is
g ∈ {1,2,3,4}, the reported percentage is round(g / 4 × 100, 1); in
particular g = 3 (light_green) yields 75.0 and band EXCELLENT. -/
theorem c4_single_section (g : ℚ) (h : g = 1 ∨ g = 2 ∨ g = 3 ∨ g = 4) :
    ExcelGenerator.summary_scores [("quality_pmtct", .vnum g)] ["quality_pmtct"] =
      some (pyRound1 (g / 4 * 100),
        ExcelGenerator.performance (pyRound1 (g / 4 * 100))) ∧
    (g = 3 →
      ExcelGenerator.summary_scores [("quality_pmtct", .vnum g)] ["quality_pmtct"] =
        some (75, "EXCELLENT")) := by
  rcases h with h | h | h | h <;> subst h
  · exact ⟨by with_unfolding_all rfl, fun hg => absurd hg (by norm_num)⟩
  · exact ⟨by with_unfolding_all rfl, fun hg => absurd hg (by norm_num)⟩
  · exact ⟨by with_unfolding_all rfl, fun _ => by with_unfolding_all rfl⟩
  · exact ⟨by with_unfolding_all rfl, fun hg => absurd hg (by norm_num)⟩

/-- Witness for C4 at g = 3. -/
theorem c4_witness :
    ExcelGenerator.summary_scores [("quality_pmtct", .vnum 3)] ["quality_pmtct"] =
      some (pyRound1 (3 / 4 * 100),
        ExcelGenerator.performance (pyRound1 (3 / 4 * 100))) ∧
    ((3 : ℚ) = 3 →
      ExcelGenerator.summary_scores [("quality_pmtct", .vnum 3)] ["quality_pmtct"] =
        some (75, "EXCELLENT")) :=
  c4_single_section 3 (by norm_num)

/-- Claim C5: a section whose score is absent, empty, or 'N/A' contributes
exactly 0 to the aggregate numerator (`total_scored` is the sum of the
per-section contributions, and such a section's contribution is 0 — it is
never coerced to grade red = 1 or any other value). -/
theorem c5_na_contributes_zero (scores : Scores) (section_id : String)
    (section_ids : List String)
    (h : scores.lookup section_id = none ∨
         scores.lookup section_id = some (.vstr "N/A") ∨
         scores.lookup section_id = some (.vstr "")) :
    numerator_contribution scores section_id = 0 ∧
    (ExcelGenerator.loop_totals section_ids scores).total_scored =
      ((section_ids.map (numerator_contribution scores)).sum) := by
  refine ⟨?_, loop_totals_total_scored section_ids scores⟩
  rcases h with h | h | h <;> simp [numerator_contribution, h, scoreVal]

/-- Witness for C5: scores `{a: 2, b: 'N/A'}`, section b, list [a, b]. -/
theorem c5_witness :
    numerator_contribution [("a", .vnum 2), ("b", .vstr "N/A")] "b" = 0 ∧
    (ExcelGenerator.loop_totals ["a", "b"]
        [("a", .vnum 2), ("b", .vstr "N/A")]).total_scored =
      ((["a", "b"].map
        (numerator_contribution [("a", .vnum 2), ("b", .vstr "N/A")])).sum) :=
  c5_na_contributes_zero [("a", .vnum 2), ("b", .vstr "N/A")] "b" ["a", "b"]
    (Or.inr (Or.inl (by with_unfolding_all rfl)))

/-- Claim C6, counterexample: for the scores mapping `{foo: 4, bar: 4}` with
section definitions whose keys are `[foo, bar]`, the Excel path (which takes
its section ids from `section_definitions.keys()`) reports (100.0, EXCELLENT)
while the Word path (whose `_create_summary_section` iterates a hardcoded
17-section list) reports (0.0, CRITICAL): the two per-format aggregators are
not extensionally equal. -/
theorem c6_counterexample :
    ExcelGenerator.summary_scores [("foo", .vnum 4), ("bar", .vnum 4)] ["foo", "bar"] =
      some (100, "EXCELLENT") ∧
    WordGenerator.summary_scores [("foo", .vnum 4), ("bar", .vnum 4)] ["foo", "bar"] =
      some (0, "CRITICAL") ∧
    ExcelGenerator.summary_scores [("foo", .vnum 4), ("bar", .vnum 4)] ["foo", "bar"] ≠
      WordGenerator.summary_scores [("foo", .vnum 4), ("bar", .vnum 4)] ["foo", "bar"] := by
  have h1 : ExcelGenerator.summary_scores
      [("foo", .vnum 4), ("bar", .vnum 4)] ["foo", "bar"] = some (100, "EXCELLENT") := by
    with_unfolding_all rfl
  have h2 : WordGenerator.summary_scores
      [("foo", .vnum 4), ("bar", .vnum 4)] ["foo", "bar"] = some (0, "CRITICAL") := by
    with_unfolding_all rfl
  refine ⟨h1, h2, ?_⟩
  rw [h1, h2]
  intro hc
  have h100 : (100 : ℚ) = 0 := congrArg Prod.fst (Option.some.inj hc)
  norm_num at h100

/-- Claim C6, amended: the Excel and Word score derivations compute the same
(percentage, band) pair whenever the section-definitions keys coincide with
the Word path's hardcoded 17-section list. -/
theorem c6_amended_equal_on_word_sections (scores : Scores)
    (section_definition_keys : List String)
    (h : section_definition_keys = WordGenerator.word_section_ids) :
    ExcelGenerator.summary_scores scores section_definition_keys =
      WordGenerator.summary_scores scores section_definition_keys := by
  subst h
  rfl

/-- Witness for C6 amended: the full 17-section list with one scored section. -/
theorem c6_witness :
    ExcelGenerator.summary_scores [("patient_records", .vnum 3)]
        WordGenerator.word_section_ids =
      WordGenerator.summary_scores [("patient_records", .vnum 3)]
        WordGenerator.word_section_ids :=
  c6_amended_equal_on_word_sections [("patient_records", .vnum 3)]
    WordGenerator.word_section_ids rfl

/-- Claim C7: for a positive denominator, the reported overall percentage is
the numerator / denominator × 100 rounded to one decimal place with
round-half-to-even: it is an integer multiple k/10 of one tenth, within 1/20
of the exact ratio, and on an exact tie (distance exactly 1/20) the chosen
numerator k is even. -/
theorem c7_percentage_rounding (t : Totals) (h : 0 < t.total_possible) :
    ∃ k : ℤ,
      ExcelGenerator.percentage t = (k : ℚ) / 10 ∧
      |t.total_scored / (t.total_possible : ℚ) * 100 - (k : ℚ) / 10| ≤ 1 / 20 ∧
      (|t.total_scored / (t.total_possible : ℚ) * 100 - (k : ℚ) / 10| = 1 / 20 →
        Even k) := by
  set x := t.total_scored / (t.total_possible : ℚ) * 100 with hx
  have key := roundHalfEvenInt_close (x * 10)
  refine ⟨roundHalfEvenInt (x * 10), ?_, ?_, ?_⟩
  · unfold ExcelGenerator.percentage pyRound1
    rw [if_pos h]
  · have hdiff : x - (roundHalfEvenInt (x * 10) : ℚ) / 10 =
        (x * 10 - (roundHalfEvenInt (x * 10) : ℚ)) / 10 := by ring
    rw [hdiff, abs_div, abs_of_pos (show (0 : ℚ) < 10 by norm_num)]
    have := key.1
    linarith
  · intro habs
    apply key.2
    have hdiff : x - (roundHalfEvenInt (x * 10) : ℚ) / 10 =
        (x * 10 - (roundHalfEvenInt (x * 10) : ℚ)) / 10 := by ring
    rw [hdiff, abs_div, abs_of_pos (show (0 : ℚ) < 10 by norm_num)] at habs
    linarith

/-- Witness for C7 at the totals (4, 3, 1). -/
theorem c7_witness :
    ∃ k : ℤ,
      ExcelGenerator.percentage ⟨4, 3, 1⟩ = (k : ℚ) / 10 ∧
      |(3 : ℚ) / ((4 : ℕ) : ℚ) * 100 - (k : ℚ) / 10| ≤ 1 / 20 ∧
      (|(3 : ℚ) / ((4 : ℕ) : ℚ) * 100 - (k : ℚ) / 10| = 1 / 20 → Even k) :=
  c7_percentage_rounding ⟨4, 3, 1⟩ (by norm_num)

/-- Claim C8, counterexample: a configuration with a dangling `depends_on`
reference (question `pr_q2` depends on a nonexistent `pr_q1`) is malformed in
the spec's sense, yet loading it succeeds unchanged — no validation runs at
load time and no SpecificationError exists anywhere in the repository. -/
theorem c8_counterexample :
    spec_has_dangling_depends_on dangling_config = true ∧
    load_assessment_config dangling_config = Except.ok dangling_config :=
  ⟨by with_unfolding_all rfl, rfl⟩

/-- Claim C8, amended: the question-specification "loader" performs no
validation at all — loading is the identity and succeeds for every
configuration, malformed or not, so a malformed specification is never
rejected at startup (nor later by a loader). -/
theorem c8_amended_no_validation (c : AssessmentConfig) :
    load_assessment_config c = Except.ok c :=
  rfl

/-- Claim C9, counterexample: with scores `{a: "garbage", b: 4}` over sections
[a, b], the unparsable value is skipped (contributing 0 while its section
stays in the denominator) and aggregation completes with (50.0, GOOD) — but
the anomaly is surfaced nowhere: the warning list the summary computation can
produce is constantly empty, not a list recording the bad field. -/
theorem c9_counterexample :
    ExcelGenerator.summary_scores [("a", .vstr "garbage"), ("b", .vnum 4)] ["a", "b"] =
      some (50, "GOOD") ∧
    ExcelGenerator.summary_warnings [("a", .vstr "garbage"), ("b", .vnum 4)] ["a", "b"] =
      [] ∧
    parseFloat "garbage" = none :=
  ⟨by with_unfolding_all rfl, rfl, by with_unfolding_all rfl⟩

/-- Claim C9, amended: a score value that cannot be parsed as a number
contributes 0 to the numerator (its section still adds 4 to the denominator)
and the aggregation of the remaining entries completes without any exception,
but no warning list is surfaced — the `except` handler silently discards the
anomaly. -/
theorem c9_amended_malformed_silent (scores : Scores) (section_ids : List String)
    (section_id : String) (s : String)
    (h1 : scores.lookup section_id = some (.vstr s))
    (h2 : s ≠ "N/A") (h3 : s ≠ "") (h4 : parseFloat s = none) :
    numerator_contribution scores section_id = 0 ∧
    (ExcelGenerator.loop_totals section_ids scores).total_possible =
      4 * section_ids.length ∧
    ExcelGenerator.summary_warnings scores section_ids = [] := by
  refine ⟨?_, loop_totals_total_possible section_ids scores, rfl⟩
  simp [numerator_contribution, h1, scoreVal, h2, h3, h4]

/-- Witness for C9 amended at scores `{a: "garbage", b: 4}`. -/
theorem c9_witness :
    numerator_contribution [("a", .vstr "garbage"), ("b", .vnum 4)] "a" = 0 ∧
    (ExcelGenerator.loop_totals ["a", "b"]
        [("a", .vstr "garbage"), ("b", .vnum 4)]).total_possible =
      4 * (["a", "b"] : List String).length ∧
    ExcelGenerator.summary_warnings [("a", .vstr "garbage"), ("b", .vnum 4)]
      ["a", "b"] = [] :=
  c9_amended_malformed_silent [("a", .vstr "garbage"), ("b", .vnum 4)] ["a", "b"]
    "a" "garbage" (by with_unfolding_all rfl) (by decide) (by decide)
    (by with_unfolding_all rfl)

/-- Claim C10: the numeric-score guard of `validate_assessment_data` accepts a
numeric score s exactly when 0 ≤ s ≤ 100 (the `0 <= score <= 5` disjunct is
subsumed by `0 <= score <= 100`), the validation loop emits an error for a
numeric entry exactly when the guard fails, and a section score of 87 passes. -/
theorem c10_numeric_guard (s : ℚ) :
    (DataValidator.numeric_score_ok s = true ↔ 0 ≤ s ∧ s ≤ 100) ∧
    DataValidator.numeric_score_ok 87 = true ∧
    (∀ indicator_id : String,
      DataValidator.validate_scores_errors [(indicator_id, .pynum s)] =
        if 0 ≤ s ∧ s ≤ 100 then []
        else ["Invalid numeric score for " ++ indicator_id ++
          ". Must be between 0-5 or 0-100"]) ∧
    ((0 ≤ s ∧ s ≤ 5) → (0 ≤ s ∧ s ≤ 100)) := by
  have hiff : DataValidator.numeric_score_ok s = true ↔ 0 ≤ s ∧ s ≤ 100 := by
    unfold DataValidator.numeric_score_ok
    rw [Bool.or_eq_true, decide_eq_true_eq, decide_eq_true_eq]
    constructor
    · rintro (⟨ha, hb⟩ | hab)
      · exact ⟨ha, by linarith⟩
      · exact hab
    · exact fun hab => Or.inr hab
  have h87 : DataValidator.numeric_score_ok 87 = true := by
    unfold DataValidator.numeric_score_ok
    rw [Bool.or_eq_true, decide_eq_true_eq, decide_eq_true_eq]
    right
    norm_num
  refine ⟨hiff, h87, ?_, fun hab => ⟨hab.1, by linarith [hab.2]⟩⟩
  intro indicator_id
  unfold DataValidator.validate_scores_errors
  rw [List.foldl_cons, List.foldl_nil]
  by_cases hcase : 0 ≤ s ∧ s ≤ 100
  · rw [if_pos hcase]
    have hb : DataValidator.numeric_score_ok s = true := hiff.2 hcase
    simp [hb]
  · rw [if_neg hcase]
    have hb : DataValidator.numeric_score_ok s = false :=
      Bool.eq_false_iff.2 (fun hc => hcase (hiff.1 hc))
    simp [hb]

/-- Witness for C10 at s = 87. -/
theorem c10_witness :
    (DataValidator.numeric_score_ok 87 = true ↔ 0 ≤ (87 : ℚ) ∧ (87 : ℚ) ≤ 100) ∧
    DataValidator.numeric_score_ok 87 = true ∧
    (∀ indicator_id : String,
      DataValidator.validate_scores_errors [(indicator_id, .pynum 87)] =
        if 0 ≤ (87 : ℚ) ∧ (87 : ℚ) ≤ 100 then []
        else ["Invalid numeric score for " ++ indicator_id ++
          ". Must be between 0-5 or 0-100"]) ∧
    ((0 ≤ (87 : ℚ) ∧ (87 : ℚ) ≤ 5) → (0 ≤ (87 : ℚ) ∧ (87 : ℚ) ≤ 100)) :=
  c10_numeric_guard 87

